import Mathlib

/-!
Shallow embedding of `fst/simulation/plot_results.py`.

The script loads two CSV files with pandas, sets the `t` column as index,
groups each frame by `name`, selects the `goodput` column, plots each group
as one line on its own subplot, labels the axes and titles, and displays
both subplots once with `plt.show()`.

Cells are kept as strings (the pipeline never computes on the values, it
only indexes, groups and draws them). Fallible pandas operations return
`Option`: `none` models an uncaught exception terminating the process.
-/

namespace PlotResults

open scoped List

/-- A raw CSV file: a header row and data rows, each cell kept as a string. -/
structure CSV where
  header : List String
  rows : List (List String)
deriving DecidableEq

/-- A pandas DataFrame: column labels, row index labels, and data rows. -/
structure DataFrame where
  columns : List String
  index : List String
  rows : List (List String)
deriving DecidableEq

/-- `pd.read_csv`: parse a CSV file into a DataFrame with the default range
index; fails (raises) when the file is malformed, that is, when some data
row's width differs from the header's. -/
def read_csv (f : CSV) : Option DataFrame :=
  if f.rows.all (fun r => r.length == f.header.length) then
    some ⟨f.header, (List.range f.rows.length).map (fun n => toString n), f.rows⟩
  else none

/-- `df.set_index(c, inplace=True)`: make column `c` the index, removing it
from the data columns; raises `KeyError` when `c` is not a column. -/
def DataFrame.set_index (df : DataFrame) (c : String) : Option DataFrame :=
  match df.columns.findIdx? (fun x => x == c) with
  | none => none
  | some i =>
      some ⟨df.columns.eraseIdx i,
            df.rows.map (fun r => r.getD i ""),
            df.rows.map (fun r => r.eraseIdx i)⟩

/-- A pandas `GroupBy` object: the grouping key of every row, recorded next
to the frame's index, columns and rows (grouping reorders nothing). -/
structure GroupBy where
  keyVals : List String
  index : List String
  columns : List String
  rows : List (List String)
deriving DecidableEq

/-- `df.groupby(key)`: group rows by the values of column `key`; raises
`KeyError` when `key` is not a column. -/
def DataFrame.groupby (df : DataFrame) (key : String) : Option GroupBy :=
  match df.columns.findIdx? (fun x => x == key) with
  | none => none
  | some ki => some ⟨df.rows.map (fun r => r.getD ki ""), df.index, df.columns, df.rows⟩

/-- A pandas `SeriesGroupBy`: one selected column of a grouped frame. -/
structure SeriesGroupBy where
  keyVals : List String
  index : List String
  vals : List String
deriving DecidableEq

/-- `g[c]`: select column `c` of a grouped frame; raises `KeyError` when `c`
is not a column. -/
def GroupBy.select (g : GroupBy) (c : String) : Option SeriesGroupBy :=
  match g.columns.findIdx? (fun x => x == c) with
  | none => none
  | some vi => some ⟨g.keyVals, g.index, g.rows.map (fun r => r.getD vi "")⟩

/-- One plotted line: its legend label (the group name) and its (x, y)
points in drawing order. -/
structure Series where
  label : String
  points : List (String × String)
deriving DecidableEq

/-- Lexicographic code-point comparison of character lists. -/
def charListLe : List Char → List Char → Bool
  | [], _ => true
  | _ :: _, [] => false
  | a :: as, b :: bs =>
      if a.toNat < b.toNat then true
      else if b.toNat < a.toNat then false
      else charListLe as bs

/-- String comparison (lexicographic by code point), the order in which
pandas sorts group keys. -/
def strLe (a b : String) : Bool := charListLe a.data b.data

/-- Insert a string into a list, before the first entry it compares at or
below. -/
def insertSorted (a : String) : List String → List String
  | [] => [a]
  | b :: l => if strLe a b then a :: b :: l else b :: insertSorted a l

/-- Insertion sort on strings. -/
def sortKeys : List String → List String
  | [] => []
  | a :: l => insertSorted a (sortKeys l)

/-- The distinct group keys in sorted order, as pandas `groupby` (with its
default `sort=True`) orders the groups. -/
def SeriesGroupBy.groupKeys (s : SeriesGroupBy) : List String :=
  sortKeys s.keyVals.dedup

/-- `grouped.plot(ax=..)`: one line per group, labelled with the group key;
within a group the points are the (index, value) pairs of that group's rows
in their original row order. -/
def SeriesGroupBy.plotted (s : SeriesGroupBy) : List Series :=
  s.groupKeys.map (fun n =>
    ⟨n, (s.keyVals.zip (s.index.zip s.vals)).filterMap
        (fun p => if p.1 == n then some p.2 else none)⟩)

/-- The first input file name (line 6 of the script). -/
def file1 : String := "StepSFQ_baseline_timestep-1-sec.csv"

/-- The second input file name (line 15 of the script). -/
def file2 : String := "StepBF_baseline_timestep-1-sec.csv"

/-- Lines 6-10: the df1 pipeline. `read_csv`, then `set_index('t')`, then
`groupby('name')['goodput']`, then `.plot`: the list of series drawn on the
first subplot, or `none` when a step raises. -/
def df1_pipeline (c : CSV) : Option (List Series) :=
  match read_csv c with
  | none => none
  | some df =>
    match df.set_index "t" with
    | none => none
    | some df =>
      match df.groupby "name" with
      | none => none
      | some g =>
        match g.select "goodput" with
        | none => none
        | some s => some s.plotted

/-- Lines 15-19: the df2 pipeline, transcribed from its own lines of the
script exactly as `df1_pipeline` is from lines 6-10. -/
def df2_pipeline (c : CSV) : Option (List Series) :=
  match read_csv c with
  | none => none
  | some df =>
    match df.set_index "t" with
    | none => none
    | some df =>
      match df.groupby "name" with
      | none => none
      | some g =>
        match g.select "goodput" with
        | none => none
        | some s => some s.plotted

/-- One matplotlib Axes: the lines drawn on it plus its decorations. -/
structure Axes where
  series : List Series
  legendOn : Bool
  xlabel : String
  ylabel : String
  title : String
deriving DecidableEq

/-- The figure produced by `plt.subplots(nrows=2, ncols=1)`: two stacked
axes. -/
structure Figure where
  ax0 : Axes
  ax1 : Axes
deriving DecidableEq

/-- An Axes as `plt.subplots` creates it: no lines, no decorations. -/
def emptyAxes : Axes := ⟨[], false, "", "", ""⟩

/-- Observable processing steps of the script, used to state in which order
the work happens and that display happens once. -/
inductive Ev where
  | load (file : String)
  | setIndex (col : String)
  | groupBy (col : String)
  | selectCol (col : String)
  | plotOn (axIdx : Nat)
  | setXLabel (axIdx : Nat)
  | setYLabel (axIdx : Nat)
  | setTitle (axIdx : Nat)
  | display
deriving DecidableEq

/-- The trace of a run in which every step succeeds: the two per-file
pipelines in program order, then the single `plt.show()`. -/
def expectedTrace : List Ev :=
  [.load file1, .setIndex "t", .groupBy "name", .selectCol "goodput",
   .plotOn 0, .setXLabel 0, .setYLabel 0, .setTitle 0,
   .load file2, .setIndex "t", .groupBy "name", .selectCol "goodput",
   .plotOn 1, .setXLabel 1, .setYLabel 1, .setTitle 1, .display]

/-- The whole script, line by line, over a file system (a map from file
name to file contents). Returns the displayed figure (`none` when an
uncaught exception terminates the process first) together with the list of
steps completed before termination. -/
def run (fs : String → Option CSV) : Option Figure × List Ev :=
  match fs file1 with
  | none => (none, [])
  | some c1 =>
    match read_csv c1 with
    | none => (none, [])
    | some df1 =>
      match df1.set_index "t" with
      | none => (none, [.load file1])
      | some df1b =>
        match df1b.groupby "name" with
        | none => (none, [.load file1, .setIndex "t"])
        | some g1 =>
          match g1.select "goodput" with
          | none => (none, [.load file1, .setIndex "t", .groupBy "name"])
          | some s1 =>
            let ax1 : Axes :=
              ⟨emptyAxes.series ++ s1.plotted, true, "Time (s)", "Goodput (tps)",
               "Goodput with Fairness (Stochastic Fairness Queueing)"⟩
            match fs file2 with
            | none => (none, [.load file1, .setIndex "t", .groupBy "name", .selectCol "goodput",
                              .plotOn 0, .setXLabel 0, .setYLabel 0, .setTitle 0])
            | some c2 =>
              match read_csv c2 with
              | none => (none, [.load file1, .setIndex "t", .groupBy "name", .selectCol "goodput",
                                .plotOn 0, .setXLabel 0, .setYLabel 0, .setTitle 0])
              | some df2 =>
                match df2.set_index "t" with
                | none => (none, [.load file1, .setIndex "t", .groupBy "name", .selectCol "goodput",
                                  .plotOn 0, .setXLabel 0, .setYLabel 0, .setTitle 0, .load file2])
                | some df2b =>
                  match df2b.groupby "name" with
                  | none => (none, [.load file1, .setIndex "t", .groupBy "name", .selectCol "goodput",
                                    .plotOn 0, .setXLabel 0, .setYLabel 0, .setTitle 0,
                                    .load file2, .setIndex "t"])
                  | some g2 =>
                    match g2.select "goodput" with
                    | none => (none, [.load file1, .setIndex "t", .groupBy "name", .selectCol "goodput",
                                      .plotOn 0, .setXLabel 0, .setYLabel 0, .setTitle 0,
                                      .load file2, .setIndex "t", .groupBy "name"])
                    | some s2 =>
                      let ax2 : Axes :=
                        ⟨emptyAxes.series ++ s2.plotted, true, "Time (s)", "Goodput (tps)",
                         "Goodput with Fairness (Bloom Filter)"⟩
                      (some ⟨ax1, ax2⟩, expectedTrace)

/-- The values of column `c` of a CSV file, when the column exists. -/
def CSV.col (f : CSV) (c : String) : Option (List String) :=
  match f.header.findIdx? (fun x => x == c) with
  | none => none
  | some i => some (f.rows.map (fun r => r.getD i ""))

/-- A well-formed input file per the spec's input format: columns `t`,
`name`, `goodput`, and every data row of width three. -/
def CSV.WellFormed (f : CSV) : Prop :=
  f.header = ["t", "name", "goodput"] ∧ ∀ r ∈ f.rows, r.length = 3

/-- The records of a CSV file as loaded: for each row, its
(name, (t, goodput)) triple. -/
def CSV.records (f : CSV) : List (String × String × String) :=
  f.rows.map (fun r => (r.getD 1 "", r.getD 0 "", r.getD 2 ""))

/-- Every (label, (x, y)) point appearing on a list of plotted series. -/
def plottedPoints (g : List Series) : List (String × String × String) :=
  g.flatMap (fun s => s.points.map (fun p => (s.label, p)))

/-! ### Helper lemmas -/

/-- Inserting into a list permutes consing onto it. -/
lemma insertSorted_perm (a : String) : ∀ l : List String,
    List.Perm (insertSorted a l) (a :: l)
  | [] => List.Perm.refl _
  | b :: l => by
      unfold insertSorted
      by_cases hb : strLe a b = true
      · rw [if_pos hb]
      · rw [if_neg hb]
        exact (List.Perm.cons b (insertSorted_perm a l)).trans (List.Perm.swap a b l)

/-- Sorting permutes. -/
lemma sortKeys_perm : ∀ l : List String, List.Perm (sortKeys l) l
  | [] => List.Perm.refl _
  | a :: l => by
      unfold sortKeys
      exact (insertSorted_perm a (sortKeys l)).trans (List.Perm.cons a (sortKeys_perm l))

/-- A string absent from a list is found at no index. -/
lemma findIdx?_beq_eq_none {c : String} {l : List String} (h : c ∉ l) :
    l.findIdx? (fun x => x == c) = none := by
  rw [List.findIdx?_eq_none_iff]
  intro x hx
  simp only [beq_eq_false_iff_ne, ne_eq]
  intro hxc
  exact h (hxc ▸ hx)

/-- Dropping the head shifts positional access by one. -/
lemma eraseIdx_zero_getD (r : List String) (i : Nat) :
    (r.eraseIdx 0).getD i "" = r.getD (i + 1) "" := by
  cases r <;> rfl

/-- On a well-formed input, the df1 pipeline succeeds and plots the grouped
series built from the `name`, `t` and `goodput` columns. -/
lemma df1_pipeline_wellFormed (f : CSV) (hh : f.header = ["t", "name", "goodput"])
    (hr : ∀ r ∈ f.rows, r.length = 3) :
    df1_pipeline f = some (SeriesGroupBy.plotted
      ⟨f.rows.map (fun r => r.getD 1 ""),
       f.rows.map (fun r => r.getD 0 ""),
       f.rows.map (fun r => r.getD 2 "")⟩) := by
  have hall : f.rows.all (fun r => r.length == f.header.length) = true := by
    rw [List.all_eq_true]
    intro r hrr
    rw [hh]
    simpa using hr r hrr
  have hkey : f.rows.map (fun r => (r.eraseIdx 0).getD 0 "") =
      f.rows.map (fun r => r.getD 1 "") :=
    List.map_congr_left (fun r _ => eraseIdx_zero_getD r 0)
  have hval : f.rows.map (fun r => (r.eraseIdx 0).getD 1 "") =
      f.rows.map (fun r => r.getD 2 "") :=
    List.map_congr_left (fun r _ => eraseIdx_zero_getD r 1)
  have h1 : (["t", "name", "goodput"].findIdx? (fun x => x == "t")) = some 0 := by decide
  have h2 : (["name", "goodput"].findIdx? (fun x => x == "name")) = some 0 := by decide
  have h3 : (["name", "goodput"].findIdx? (fun x => x == "goodput")) = some 1 := by decide
  have he : (["t", "name", "goodput"] : List String).eraseIdx 0 = ["name", "goodput"] := rfl
  unfold df1_pipeline read_csv DataFrame.set_index DataFrame.groupby GroupBy.select
  rw [if_pos hall]
  simp only [hh, h1, he, h2, h3, List.map_map, Function.comp_def]
  rw [hkey, hval]

/-- A grouped `filterMap` is a `filter` followed by the point projection. -/
lemma filterMap_if_eq_filter_map {β : Type} (n : String) (zs : List (String × β)) :
    zs.filterMap (fun p => if p.1 == n then some p.2 else none)
      = (zs.filter (fun p => p.1 == n)).map (fun p => p.2) := by
  induction zs with
  | nil => rfl
  | cons z zs ih =>
      rw [List.filterMap_cons, List.filter_cons]
      cases hz : (z.1 == n) with
      | false => exact ih
      | true => exact congrArg (List.cons z.2) ih

/-- `flatMap` only looks at its function on members of the list. -/
lemma flatMap_congr_mem {α β : Type} {l : List α} {f g : α → List β}
    (h : ∀ a ∈ l, f a = g a) : l.flatMap f = l.flatMap g := by
  induction l with
  | nil => rfl
  | cons a l ih =>
      rw [List.flatMap_cons, List.flatMap_cons, h a (by simp),
        ih (fun b hb => h b (by simp [hb]))]

/-- Concatenating, over a duplicate-free list of keys covering every
element, the sublists of elements carrying each key is a permutation of the
original list. -/
lemma flatMap_filter_perm {β : Type} :
    ∀ (ks : List String) (zs : List (String × β)), ks.Nodup →
      (∀ z ∈ zs, z.1 ∈ ks) →
      (ks.flatMap (fun n => zs.filter (fun z => z.1 == n))) ~ zs := by
  intro ks
  induction ks with
  | nil =>
      intro zs _ hcov
      cases zs with
      | nil => rfl
      | cons z zs => exact absurd (hcov z (by simp)) (by simp)
  | cons n ks ih =>
      intro zs hnd hcov
      rw [List.flatMap_cons]
      have hnmem : n ∉ ks := (List.nodup_cons.mp hnd).1
      have hrest : ks.flatMap (fun m => zs.filter (fun z => z.1 == m)) =
          ks.flatMap (fun m => (zs.filter (fun z => !(z.1 == n))).filter
            (fun z => z.1 == m)) := by
        refine flatMap_congr_mem (fun m hm => ?_)
        rw [List.filter_filter]
        refine List.filter_congr (fun z _ => ?_)
        show (z.1 == m) = ((z.1 == m) && !(z.1 == n))
        by_cases hz : z.1 = m
        · have hmn : m ≠ n := fun hc => hnmem (hc ▸ hm)
          have hzn : (z.1 == n) = false := by
            rw [beq_eq_false_iff_ne, hz]
            exact hmn
          rw [hzn]
          simp
        · have hzm : (z.1 == m) = false := by
            rw [beq_eq_false_iff_ne]
            exact hz
          rw [hzm]
          simp
      rw [hrest]
      have hperm : List.Perm (ks.flatMap (fun m =>
          (zs.filter (fun z => !(z.1 == n))).filter (fun z => z.1 == m)))
          (zs.filter (fun z => !(z.1 == n))) := by
        refine ih _ (List.nodup_cons.mp hnd).2 (fun z hz => ?_)
        have hz1 := List.mem_filter.mp hz
        have hz2 : (z.1 == n) = false := by
          have := hz1.2
          simpa using this
        have hzn : z.1 ≠ n := beq_eq_false_iff_ne.mp hz2
        have := hcov z hz1.1
        rw [List.mem_cons] at this
        rcases this with hc | hc
        · exact absurd hc hzn
        · exact hc
      exact ((List.Perm.append_left _ hperm).trans (List.filter_append_perm _ zs))

/-- The labelled points of the plotted series are a permutation of the
grouped frame's (key, (index, value)) rows. -/
lemma plottedPoints_plotted_perm (s : SeriesGroupBy) :
    plottedPoints s.plotted ~ s.keyVals.zip (s.index.zip s.vals) := by
  unfold plottedPoints SeriesGroupBy.plotted
  rw [List.flatMap_map]
  have hstep : ∀ n : String,
      ((s.keyVals.zip (s.index.zip s.vals)).filterMap
        (fun p => if p.1 == n then some p.2 else none)).map
          (fun p => ((n : String), p)) =
      (s.keyVals.zip (s.index.zip s.vals)).filter (fun z => z.1 == n) := by
    intro n
    rw [filterMap_if_eq_filter_map, List.map_map]
    have hmem : ∀ z ∈ (s.keyVals.zip (s.index.zip s.vals)).filter (fun z => z.1 == n),
        ((fun p => ((n : String), p)) ∘ (fun p : String × String × String => p.2)) z
          = id z := by
      intro z hz
      have hz1 : z.1 = n := by simpa using (List.mem_filter.mp hz).2
      show ((n : String), z.2) = z
      rw [← hz1]
    rw [List.map_congr_left hmem, List.map_id]
  have hfun : (fun n => ((s.keyVals.zip (s.index.zip s.vals)).filterMap
        (fun p => if p.1 == n then some p.2 else none)).map
          (fun p => ((n : String), p))) =
      (fun n => (s.keyVals.zip (s.index.zip s.vals)).filter (fun z => z.1 == n)) :=
    funext hstep
  simp only [Function.comp]
  rw [hfun]
  refine flatMap_filter_perm _ _ ?_ ?_
  · exact (sortKeys_perm s.keyVals.dedup).symm.nodup (List.nodup_dedup _)
  · intro z hz
    have hmem : z.1 ∈ s.keyVals := (List.of_mem_zip hz).1
    have hd : z.1 ∈ s.keyVals.dedup := List.mem_dedup.mpr hmem
    exact (sortKeys_perm s.keyVals.dedup).mem_iff.mpr hd

/-- Characterization of a successful run: both files are present, both
pipelines succeed, the figure carries exactly their series with the
script's decorations, and the trace is the full expected sequence. -/
lemma run_some (fs : String → Option CSV) (fig : Figure)
    (h : (run fs).1 = some fig) :
    ∃ c1 s1 c2 s2, fs file1 = some c1 ∧ df1_pipeline c1 = some s1 ∧
      fs file2 = some c2 ∧ df2_pipeline c2 = some s2 ∧
      fig = ⟨⟨s1, true, "Time (s)", "Goodput (tps)",
               "Goodput with Fairness (Stochastic Fairness Queueing)"⟩,
             ⟨s2, true, "Time (s)", "Goodput (tps)",
               "Goodput with Fairness (Bloom Filter)"⟩⟩ ∧
      (run fs).2 = expectedTrace := by
  unfold run at h ⊢
  split at h
  case _ => exact absurd h (by simp)
  case _ c1 hc1 =>
    split at h
    case _ => exact absurd h (by simp)
    case _ df1 hdf1 =>
      split at h
      case _ => exact absurd h (by simp)
      case _ df1b hdf1b =>
        split at h
        case _ => exact absurd h (by simp)
        case _ g1 hg1 =>
          split at h
          case _ => exact absurd h (by simp)
          case _ s1 hs1 =>
            split at h
            case _ => exact absurd h (by simp)
            case _ c2 hc2 =>
              split at h
              case _ => exact absurd h (by simp)
              case _ df2 hdf2 =>
                split at h
                case _ => exact absurd h (by simp)
                case _ df2b hdf2b =>
                  split at h
                  case _ => exact absurd h (by simp)
                  case _ g2 hg2 =>
                    split at h
                    case _ => exact absurd h (by simp)
                    case _ s2 hs2 =>
                      refine ⟨c1, s1.plotted, c2, s2.plotted, hc1, ?_, hc2, ?_, ?_, ?_⟩
                      · unfold df1_pipeline
                        simp only [hdf1, hdf1b, hg1, hs1]
                      · unfold df2_pipeline
                        simp only [hdf2, hdf2b, hg2, hs2]
                      · have hfig := h
                        simp only [Option.some.injEq] at hfig
                        rw [← hfig]
                        simp [emptyAxes]
                      · simp only [hc1, hdf1, hdf1b, hg1, hs1, hc2, hdf2, hdf2b, hg2, hs2]

/-- When the first file is absent the process dies at the first `read_csv`:
no figure, no completed step. -/
lemma run_none_file1 (fs : String → Option CSV) (h : fs file1 = none) :
    run fs = (none, []) := by
  unfold run
  rw [h]

/-- When a run fails, `plt.show()` is never reached: no display step is in
the trace. -/
lemma not_display_of_none (fs : String → Option CSV)
    (h : (run fs).1 = none) : Ev.display ∉ (run fs).2 := by
  rcases hp : run fs with ⟨o, tr⟩
  rw [hp] at h
  simp only at h
  subst h
  show Ev.display ∉ tr
  unfold run at hp
  repeat' split at hp
  all_goals first
    | (injection hp with h1 h2; subst h2; decide)
    | (injection hp with h1 h2; exact absurd h1.symm (by simp))

/-- A malformed file (some row of a width other than the header's) makes
`read_csv` raise, so the pipeline yields nothing. -/
lemma malformed_none (f : CSV)
    (h : (f.rows.all (fun r => r.length == f.header.length)) = false) :
    df1_pipeline f = none := by
  unfold df1_pipeline read_csv
  rw [h]
  simp

/-- The columns of a loaded frame are the file's header. -/
lemma read_csv_columns (f : CSV) (df : DataFrame) (h : read_csv f = some df) :
    df.columns = f.header := by
  unfold read_csv at h
  split at h
  · cases h
    rfl
  · exact absurd h (by simp)

/-- A file without a `t` column makes `set_index('t')` raise. -/
lemma missing_t_none (f : CSV) (h : "t" ∉ f.header) : df1_pipeline f = none := by
  unfold df1_pipeline
  cases hr : read_csv f with
  | none => rfl
  | some df =>
      have hcols := read_csv_columns f df hr
      have hfind : df.columns.findIdx? (fun x => x == "t") = none := by
        rw [hcols]
        exact findIdx?_beq_eq_none h
      unfold DataFrame.set_index
      simp only [hfind]

/-- A column missing from the header is still missing after `set_index`
removes the index column. -/
lemma set_index_not_mem (df df2 : DataFrame) (c name2 : String)
    (h : df.set_index c = some df2) (hm : name2 ∉ df.columns) :
    name2 ∉ df2.columns := by
  unfold DataFrame.set_index at h
  split at h
  · exact absurd h (by simp)
  · cases h
    exact fun hmem => hm ((df.columns.eraseIdx_sublist _).subset hmem)

/-- A file without a `name` column makes `groupby('name')` raise. -/
lemma missing_name_none (f : CSV) (h : "name" ∉ f.header) :
    df1_pipeline f = none := by
  unfold df1_pipeline
  cases hr : read_csv f with
  | none => rfl
  | some df =>
      cases hs : df.set_index "t" with
      | none => simp only [hs]
      | some df2 =>
          have hm : "name" ∉ df2.columns :=
            set_index_not_mem df df2 "t" "name" hs ((read_csv_columns f df hr) ▸ h)
          have hfind : df2.columns.findIdx? (fun x => x == "name") = none :=
            findIdx?_beq_eq_none hm
          unfold DataFrame.groupby
          simp only [hs, hfind]

/-- A file without a `goodput` column makes the `['goodput']` selection
raise; the pipeline yields nothing even though `read_csv` itself may have
succeeded. -/
lemma missing_goodput_none (f : CSV) (h : "goodput" ∉ f.header) :
    df1_pipeline f = none := by
  unfold df1_pipeline
  cases hr : read_csv f with
  | none => rfl
  | some df =>
      cases hs : df.set_index "t" with
      | none => simp only [hs]
      | some df2 =>
          have hm : "goodput" ∉ df2.columns :=
            set_index_not_mem df df2 "t" "goodput" hs ((read_csv_columns f df hr) ▸ h)
          cases hg : df2.groupby "name" with
          | none => simp only [hs, hg]
          | some g =>
              have hcols : g.columns = df2.columns := by
                unfold DataFrame.groupby at hg
                split at hg
                · exact absurd hg (by simp)
                · cases hg
                  rfl
              have hfind : g.columns.findIdx? (fun x => x == "goodput") = none := by
                rw [hcols]
                exact findIdx?_beq_eq_none hm
              unfold GroupBy.select
              simp only [hs, hg, hfind]

/-! ### Concrete inputs used by the witnesses -/

/-- A small well-formed input file with two distinct `name` values. -/
def csvA : CSV :=
  ⟨["t", "name", "goodput"], [["0", "a", "10"], ["1", "b", "20"], ["1", "a", "30"]]⟩

/-- A small well-formed input file whose `t` values are not ascending. -/
def csvB : CSV := ⟨["t", "name", "goodput"], [["2", "x", "5"], ["1", "x", "6"]]⟩

/-- A variant second input, differing from `csvB` in its data. -/
def csvB2 : CSV := ⟨["t", "name", "goodput"], [["7", "y", "8"]]⟩

/-- A file missing the `goodput` column (it still loads fine). -/
def csvNoGoodput : CSV := ⟨["t", "name"], [["0", "x"]]⟩

/-- A file system carrying the two expected input files. -/
def fsEx : String → Option CSV := fun n =>
  if n = file1 then some csvA else if n = file2 then some csvB else none

/-- Like `fsEx` but with different contents for the second file. -/
def fsEx2 : String → Option CSV := fun n =>
  if n = file1 then some csvA else if n = file2 then some csvB2 else none

/-- The figure `run fsEx` displays. -/
def figEx : Figure :=
  ⟨⟨[⟨"a", [("0", "10"), ("1", "30")]⟩, ⟨"b", [("1", "20")]⟩], true,
    "Time (s)", "Goodput (tps)",
    "Goodput with Fairness (Stochastic Fairness Queueing)"⟩,
   ⟨[⟨"x", [("2", "5"), ("1", "6")]⟩], true, "Time (s)", "Goodput (tps)",
    "Goodput with Fairness (Bloom Filter)"⟩⟩

/-- The figure `run fsEx2` displays. -/
def figEx2 : Figure :=
  ⟨⟨[⟨"a", [("0", "10"), ("1", "30")]⟩, ⟨"b", [("1", "20")]⟩], true,
    "Time (s)", "Goodput (tps)",
    "Goodput with Fairness (Stochastic Fairness Queueing)"⟩,
   ⟨[⟨"y", [("7", "8")]⟩], true, "Time (s)", "Goodput (tps)",
    "Goodput with Fairness (Bloom Filter)"⟩⟩

/-- `read_csv` on a well-formed input: the frame is the header, a range
index, and the rows. -/
lemma read_csv_wellFormed (f : CSV) (hh : f.header = ["t", "name", "goodput"])
    (hr : ∀ r ∈ f.rows, r.length = 3) :
    read_csv f = some ⟨f.header,
      (List.range f.rows.length).map (fun n => toString n), f.rows⟩ := by
  have hall : (f.rows.all fun r => r.length == f.header.length) = true := by
    rw [List.all_eq_true]
    intro r hrr
    rw [hh]
    simpa using hr r hrr
  unfold read_csv
  rw [if_pos hall]

/-- Loading a well-formed input and setting `t` as index: the index holds
the `t` column and the data columns are `name` and `goodput`. -/
lemma set_index_wellFormed (f : CSV) (hh : f.header = ["t", "name", "goodput"])
    (hr : ∀ r ∈ f.rows, r.length = 3) :
    (read_csv f).bind (fun df => df.set_index "t") =
      some ⟨["name", "goodput"], f.rows.map (fun r => r.getD 0 ""),
            f.rows.map (fun r => r.eraseIdx 0)⟩ := by
  rw [read_csv_wellFormed f hh hr]
  show DataFrame.set_index _ "t" = _
  have h1 : (["t", "name", "goodput"].findIdx? (fun x => x == "t")) = some 0 := by decide
  unfold DataFrame.set_index
  simp only [hh, h1]
  rfl

/-- Zipping the three column maps of a file rebuilds its records. -/
lemma zip_maps (f : CSV) :
    (f.rows.map (fun r => r.getD 1 "")).zip
      ((f.rows.map (fun r => r.getD 0 "")).zip (f.rows.map (fun r => r.getD 2 ""))) =
    f.records := by
  rw [List.zip_map', List.zip_map']
  rfl

/-! ### The claims -/

/-- C1: for each of the two input CSV files, the program performs exactly
the sequence load, index by `t`, group by `name`, select `goodput`, plot on
its own subplot, set the x label, y label and title — first file then
second — and finally renders both subplots in a single display call (the
trace ends with the one and only `display` step). -/
theorem c1_step_sequence (fs : String → Option CSV) (fig : Figure)
    (h : (run fs).1 = some fig) :
    (run fs).2 = [Ev.load file1, Ev.setIndex "t", Ev.groupBy "name", Ev.selectCol "goodput",
      Ev.plotOn 0, Ev.setXLabel 0, Ev.setYLabel 0, Ev.setTitle 0,
      Ev.load file2, Ev.setIndex "t", Ev.groupBy "name", Ev.selectCol "goodput",
      Ev.plotOn 1, Ev.setXLabel 1, Ev.setYLabel 1, Ev.setTitle 1, Ev.display] ∧
    (run fs).2.count Ev.display = 1 := by
  obtain ⟨c1, s1, c2, s2, _, _, _, _, _, htr⟩ := run_some fs fig h
  refine ⟨htr, ?_⟩
  rw [htr]
  rfl

/-- Witness for C1 at a concrete pair of input files. -/
theorem c1_step_sequence_witness :
    (run fsEx).2 = [Ev.load file1, Ev.setIndex "t", Ev.groupBy "name", Ev.selectCol "goodput",
      Ev.plotOn 0, Ev.setXLabel 0, Ev.setYLabel 0, Ev.setTitle 0,
      Ev.load file2, Ev.setIndex "t", Ev.groupBy "name", Ev.selectCol "goodput",
      Ev.plotOn 1, Ev.setXLabel 1, Ev.setYLabel 1, Ev.setTitle 1, Ev.display] ∧
    (run fsEx).2.count Ev.display = 1 :=
  c1_step_sequence fsEx figEx (by rfl)

/-- C2: a well-formed input CSV with N distinct `name` values yields a
subplot with exactly N plotted series. -/
theorem c2_one_series_per_name (f : CSV) (hf : f.WellFormed) (vs : List String)
    (hvs : f.col "name" = some vs) :
    ∃ g, df1_pipeline f = some g ∧ g.length = vs.dedup.length := by
  obtain ⟨hh, hr⟩ := hf
  rw [df1_pipeline_wellFormed f hh hr]
  have hvs' : vs = f.rows.map (fun r => r.getD 1 "") := by
    unfold CSV.col at hvs
    rw [hh] at hvs
    have hfind : (["t", "name", "goodput"].findIdx? (fun x => x == "name")) = some 1 := by
      decide
    rw [hfind] at hvs
    exact (Option.some.inj hvs).symm
  refine ⟨_, rfl, ?_⟩
  show (SeriesGroupBy.plotted _).length = vs.dedup.length
  unfold SeriesGroupBy.plotted SeriesGroupBy.groupKeys
  rw [List.length_map, hvs']
  exact (sortKeys_perm _).length_eq

/-- Witness for C2: two distinct names, two series. -/
theorem c2_one_series_per_name_witness :
    csvA.WellFormed ∧ csvA.col "name" = some ["a", "b", "a"] ∧
    ∃ g, df1_pipeline csvA = some g ∧
      g.length = (["a", "b", "a"] : List String).dedup.length :=
  ⟨⟨rfl, by decide⟩, rfl, c2_one_series_per_name csvA ⟨rfl, by decide⟩ ["a", "b", "a"] rfl⟩

/-- C3 counterexample: `csvNoGoodput` has no `goodput` column, yet the load
step (`read_csv`) succeeds; the failure happens later, at the `['goodput']`
selection, so attributing it to the load step is wrong. Processing still
yields no chart. -/
theorem c3_load_step_counterexample :
    (read_csv csvNoGoodput).isSome = true ∧ df1_pipeline csvNoGoodput = none :=
  ⟨rfl, rfl⟩

/-- C3 (amended): an input CSV missing the `goodput` column makes the
pipeline fail before producing a chart — the error is raised at the
`['goodput']` column selection (or an earlier step), not necessarily at
load. -/
theorem c3_missing_goodput_fails (f : CSV) (h : "goodput" ∉ f.header) :
    df1_pipeline f = none :=
  missing_goodput_none f h

/-- Witness for the amended C3. -/
theorem c3_missing_goodput_fails_witness :
    "goodput" ∉ csvNoGoodput.header ∧ df1_pipeline csvNoGoodput = none :=
  ⟨by decide, c3_missing_goodput_fails csvNoGoodput (by decide)⟩

/-- C4: the pipeline does not alter the loaded records: the labelled points
that end up plotted are a permutation of the file's (name, t, goodput)
records — grouping and plotting neither add, drop, nor modify any record
(and the embedding returns only the figure: nothing is persisted). -/
theorem c4_records_not_mutated (f : CSV) (hf : f.WellFormed) :
    ∃ g, df1_pipeline f = some g ∧ List.Perm (plottedPoints g) f.records := by
  obtain ⟨hh, hr⟩ := hf
  rw [df1_pipeline_wellFormed f hh hr]
  refine ⟨_, rfl, ?_⟩
  have hperm := plottedPoints_plotted_perm
      ⟨f.rows.map (fun r => r.getD 1 ""), f.rows.map (fun r => r.getD 0 ""),
       f.rows.map (fun r => r.getD 2 "")⟩
  simpa only [zip_maps f] using hperm

/-- Witness for C4. -/
theorem c4_records_not_mutated_witness :
    csvA.WellFormed ∧
    ∃ g, df1_pipeline csvA = some g ∧ List.Perm (plottedPoints g) csvA.records :=
  ⟨⟨rfl, by decide⟩, c4_records_not_mutated csvA ⟨rfl, by decide⟩⟩

/-- C5: running the program twice on byte-identical inputs produces the
same figure — the same series groupings — and the same trace. -/
theorem c5_determinism (fs fs' : String → Option CSV) (h : ∀ n, fs n = fs' n) :
    run fs = run fs' := by
  rw [funext h]

/-- Witness for C5. -/
theorem c5_determinism_witness : run fsEx = run fsEx :=
  c5_determinism fsEx fsEx (fun _ => rfl)

/-- C6: the x axis comes from the `t` column: after loading, `t` is the
frame's index, and the x values of the plotted series are a permutation of
the `t` column — in particular they span exactly its range. -/
theorem c6_x_axis_from_t (f : CSV) (hf : f.WellFormed) (ts : List String)
    (hts : f.col "t" = some ts) :
    ∃ df g, (read_csv f).bind (fun d => d.set_index "t") = some df ∧
      df.index = ts ∧ df1_pipeline f = some g ∧
      List.Perm (g.flatMap (fun s => s.points.map (fun p => p.1))) ts := by
  obtain ⟨hh, hr⟩ := hf
  have hts' : ts = f.rows.map (fun r => r.getD 0 "") := by
    unfold CSV.col at hts
    rw [hh] at hts
    have hfind : (["t", "name", "goodput"].findIdx? (fun x => x == "t")) = some 0 := by
      decide
    rw [hfind] at hts
    exact (Option.some.inj hts).symm
  refine ⟨_, _, set_index_wellFormed f hh hr, by rw [hts'], df1_pipeline_wellFormed f hh hr, ?_⟩
  have hx : ∀ g : List Series, (plottedPoints g).map (fun q => q.2.1)
      = g.flatMap (fun s => s.points.map (fun p => p.1)) := by
    intro g
    unfold plottedPoints
    rw [List.map_flatMap]
    refine flatMap_congr_mem (fun s _ => ?_)
    rw [List.map_map]
    rfl
  rw [← hx, hts']
  have hperm := (plottedPoints_plotted_perm
      ⟨f.rows.map (fun r => r.getD 1 ""), f.rows.map (fun r => r.getD 0 ""),
       f.rows.map (fun r => r.getD 2 "")⟩).map (fun q => q.2.1)
  simp only [zip_maps f] at hperm
  have heq : (f.records).map (fun q : String × String × String => q.2.1)
      = f.rows.map (fun r => r.getD 0 "") := by
    unfold CSV.records
    rw [List.map_map]
    rfl
  rw [heq] at hperm
  exact hperm

/-- Witness for C6. -/
theorem c6_x_axis_from_t_witness :
    csvA.WellFormed ∧ csvA.col "t" = some ["0", "1", "1"] ∧
    ∃ df g, (read_csv csvA).bind (fun d => d.set_index "t") = some df ∧
      df.index = ["0", "1", "1"] ∧ df1_pipeline csvA = some g ∧
      List.Perm (g.flatMap (fun s => s.points.map (fun p => p.1))) ["0", "1", "1"] :=
  ⟨⟨rfl, by decide⟩, rfl, c6_x_axis_from_t csvA ⟨rfl, by decide⟩ ["0", "1", "1"] rfl⟩

/-- C7: there is no error handling. A missing file, a malformed CSV, or a
missing `t`/`name`/`goodput` column aborts the run with no figure and no
partial output (the display step is never reached), and the program depends
on nothing but the contents of its two fixed input file names. -/
theorem c7_error_propagation :
    (∀ fs, fs file1 = none → run fs = (none, [])) ∧
    (∀ fs c, fs file1 = some c → df1_pipeline c = none → (run fs).1 = none) ∧
    (∀ fs, fs file2 = none → (run fs).1 = none) ∧
    (∀ fs c, fs file2 = some c → df2_pipeline c = none → (run fs).1 = none) ∧
    (∀ f, ("t" ∉ f.header ∨ "name" ∉ f.header ∨ "goodput" ∉ f.header ∨
        (f.rows.all (fun r => r.length == f.header.length)) = false) →
      df1_pipeline f = none) ∧
    (∀ fs, (run fs).1 = none → Ev.display ∉ (run fs).2) ∧
    (∀ fs fs', fs file1 = fs' file1 → fs file2 = fs' file2 → run fs = run fs') := by
  refine ⟨run_none_file1, ?_, ?_, ?_, ?_, not_display_of_none, ?_⟩
  · intro fs c h1 h2
    cases ho : (run fs).1 with
    | none => rfl
    | some fig =>
        obtain ⟨c1, s1, c2, s2, hc1, hp1, _, _, _, _⟩ := run_some fs fig ho
        rw [h1] at hc1
        rw [Option.some.inj hc1] at h2
        rw [h2] at hp1
        exact absurd hp1 (by simp)
  · intro fs h
    cases ho : (run fs).1 with
    | none => rfl
    | some fig =>
        obtain ⟨c1, s1, c2, s2, _, _, hc2, _, _, _⟩ := run_some fs fig ho
        rw [h] at hc2
        exact absurd hc2 (by simp)
  · intro fs c h1 h2
    cases ho : (run fs).1 with
    | none => rfl
    | some fig =>
        obtain ⟨c1, s1, c2, s2, _, _, hc2, hp2, _, _⟩ := run_some fs fig ho
        rw [h1] at hc2
        rw [Option.some.inj hc2] at h2
        rw [h2] at hp2
        exact absurd hp2 (by simp)
  · intro f h
    rcases h with h | h | h | h
    · exact missing_t_none f h
    · exact missing_name_none f h
    · exact missing_goodput_none f h
    · exact malformed_none f h
  · intro fs fs' h1 h2
    unfold run
    rw [h1, h2]

/-- Witness for C7: an empty file system displays nothing. -/
theorem c7_error_propagation_witness : run (fun _ => none) = (none, []) :=
  c7_error_propagation.1 (fun _ => none) rfl

/-- C8: the two subplots are computed independently — the first subplot is a
function of the first file alone, the second of the second file alone. -/
theorem c8_subplot_independence :
    (∀ fs fs' fig fig', fs file1 = fs' file1 → (run fs).1 = some fig →
      (run fs').1 = some fig' → fig.ax0 = fig'.ax0) ∧
    (∀ fs fs' fig fig', fs file2 = fs' file2 → (run fs).1 = some fig →
      (run fs').1 = some fig' → fig.ax1 = fig'.ax1) := by
  constructor
  · intro fs fs' fig fig' h hf hf'
    obtain ⟨c1, s1, c2, s2, hc1, hp1, _, _, hfig, _⟩ := run_some fs fig hf
    obtain ⟨c1', s1', c2', s2', hc1', hp1', _, _, hfig', _⟩ := run_some fs' fig' hf'
    have hc : c1 = c1' := Option.some.inj ((hc1.symm.trans h).symm.symm.trans hc1')
    rw [hc] at hp1
    have hs : s1 = s1' := Option.some.inj (hp1.symm.trans hp1')
    rw [hfig, hfig', hs]
  · intro fs fs' fig fig' h hf hf'
    obtain ⟨c1, s1, c2, s2, _, _, hc2, hp2, hfig, _⟩ := run_some fs fig hf
    obtain ⟨c1', s1', c2', s2', _, _, hc2', hp2', hfig', _⟩ := run_some fs' fig' hf'
    have hc : c2 = c2' := Option.some.inj ((hc2.symm.trans h).symm.symm.trans hc2')
    rw [hc] at hp2
    have hs : s2 = s2' := Option.some.inj (hp2.symm.trans hp2')
    rw [hfig, hfig', hs]

/-- Witness for C8: changing only the second file leaves the first subplot
untouched. -/
theorem c8_subplot_independence_witness : figEx.ax0 = figEx2.ax0 :=
  c8_subplot_independence.1 fsEx fsEx2 figEx figEx2 (by rfl) (by rfl) (by rfl)

/-- C9: the two per-file pipelines are one and the same transformation
applied to two inputs: `df1_pipeline` (lines 6-10) and `df2_pipeline`
(lines 15-19) agree on every input, and a successful run draws exactly
their outputs on the two subplots — only file name, target axes, and title
differ. -/
theorem c9_identical_pipelines :
    (∀ c, df1_pipeline c = df2_pipeline c) ∧
    (∀ fs fig, (run fs).1 = some fig → ∃ c1 c2, fs file1 = some c1 ∧ fs file2 = some c2 ∧
      df1_pipeline c1 = some fig.ax0.series ∧ df2_pipeline c2 = some fig.ax1.series) := by
  constructor
  · intro c
    rfl
  · intro fs fig h
    obtain ⟨c1, s1, c2, s2, hc1, hp1, hc2, hp2, hfig, _⟩ := run_some fs fig h
    refine ⟨c1, c2, hc1, hc2, ?_, ?_⟩
    · rw [hfig]
      exact hp1
    · rw [hfig]
      exact hp2

/-- Witness for C9. -/
theorem c9_identical_pipelines_witness :
    df1_pipeline csvA = df2_pipeline csvA ∧
    (∃ c1 c2, fsEx file1 = some c1 ∧ fsEx file2 = some c2 ∧
      df1_pipeline c1 = some figEx.ax0.series ∧ df2_pipeline c2 = some figEx.ax1.series) :=
  ⟨c9_identical_pipelines.1 csvA, c9_identical_pipelines.2 fsEx figEx (by rfl)⟩

/-- C10: within each `name` group the plotted points keep the row order of
the input file: each series' points are exactly the (t, goodput) pairs of
its rows, filtered in file order — nothing is sorted by `t`. -/
theorem c10_points_in_row_order (f : CSV) (hf : f.WellFormed) :
    ∃ g, df1_pipeline f = some g ∧ ∀ s ∈ g,
      s.points = f.rows.filterMap (fun r =>
        if r.getD 1 "" == s.label then some (r.getD 0 "", r.getD 2 "") else none) := by
  obtain ⟨hh, hr⟩ := hf
  rw [df1_pipeline_wellFormed f hh hr]
  refine ⟨_, rfl, ?_⟩
  intro s hs
  unfold SeriesGroupBy.plotted at hs
  obtain ⟨n, hn, rfl⟩ := List.mem_map.mp hs
  show ((f.rows.map (fun r => r.getD 1 "")).zip
      ((f.rows.map (fun r => r.getD 0 "")).zip (f.rows.map (fun r => r.getD 2 "")))).filterMap
        (fun p => if p.1 == n then some p.2 else none)
    = f.rows.filterMap (fun r =>
        if r.getD 1 "" == n then some (r.getD 0 "", r.getD 2 "") else none)
  rw [zip_maps f]
  unfold CSV.records
  rw [List.filterMap_map]
  rfl

/-- Witness for C10, on a file whose `t` values are not ascending: the
points stay in row order. -/
theorem c10_points_in_row_order_witness :
    csvB.WellFormed ∧ ∃ g, df1_pipeline csvB = some g ∧ ∀ s ∈ g,
      s.points = csvB.rows.filterMap (fun r =>
        if r.getD 1 "" == s.label then some (r.getD 0 "", r.getD 2 "") else none) :=
  ⟨⟨rfl, by decide⟩, c10_points_in_row_order csvB ⟨rfl, by decide⟩⟩

end PlotResults
